import Mathlib

/-!
Shallow embedding of the INFOMOV ray-tracer core (src/template/scene.h and
src/2. Whitted/renderer.cpp), with the active preprocessor configuration of
the source: SPEEDTRIX, FOURLIGHTS and USEBVH are all defined (scene.h lines
22-24), so the SPEEDTRIX / FOURLIGHTS branches of every `#ifdef` are the ones
embedded here.

Modelling conventions:
- `float` / `double` arithmetic is embedded as exact rational arithmetic (ℚ).
  Transcendental library calls (sqrtf, cbrtf, cosf, acosf, sinf, expf) are
  threaded through an `Oracles` record of unspecified functions ℚ → ℚ, so
  every theorem quantifies over their behaviour; the texture images read by
  `Plane::GetAlbedo` (external asset files) are likewise oracle pixel arrays.
- In ℚ, division by zero yields 0 (instead of IEEE ±inf); concrete inputs
  used in witnesses and counterexamples keep all divisors nonzero so that the
  model and the IEEE source agree on them.
- C integer truncation `(int)x` is rounding toward zero, `fmodf` is the
  C sign-preserving remainder, and `x & 1`, `x & 127`, ... on the always
  nonnegative operands that occur here are embedded as `% 2`, `% 128`, ...
-/

/-- Three-component vector, the embedding of the template's `float3`. -/
structure Vec3 where
  x : ℚ
  y : ℚ
  z : ℚ
deriving DecidableEq, Repr

/-- Componentwise addition, as for `float3`. -/
def Vec3.add (a b : Vec3) : Vec3 := ⟨a.x + b.x, a.y + b.y, a.z + b.z⟩

/-- Componentwise subtraction, as for `float3`. -/
def Vec3.sub (a b : Vec3) : Vec3 := ⟨a.x - b.x, a.y - b.y, a.z - b.z⟩

/-- Componentwise product, as for `float3 * float3`. -/
def Vec3.mul (a b : Vec3) : Vec3 := ⟨a.x * b.x, a.y * b.y, a.z * b.z⟩

/-- Scalar multiple, as for `float * float3`. -/
def Vec3.smul (s : ℚ) (a : Vec3) : Vec3 := ⟨s * a.x, s * a.y, s * a.z⟩

/-- Componentwise negation. -/
def Vec3.neg (a : Vec3) : Vec3 := ⟨-a.x, -a.y, -a.z⟩

/-- The zero vector `float3( 0 )`. -/
def Vec3.zero : Vec3 := ⟨0, 0, 0⟩

/-- Dot product of two 3-vectors, the template's `dot`. -/
def dot3 (a b : Vec3) : ℚ := a.x * b.x + a.y * b.y + a.z * b.z

instance : Add Vec3 := ⟨Vec3.add⟩
instance : Sub Vec3 := ⟨Vec3.sub⟩
instance : Mul Vec3 := ⟨Vec3.mul⟩
instance : Neg Vec3 := ⟨Vec3.neg⟩
instance : HSMul ℚ Vec3 Vec3 := ⟨Vec3.smul⟩

/-- Oracle record for the C math-library calls and external texture assets
used by the embedded code.  Each theorem quantifies over an arbitrary
`Oracles` value, so nothing proved below depends on any property of the
transcendental functions beyond determinism. -/
structure Oracles where
  sqf   : ℚ → ℚ  -- sqrtf / sqrt
  cbf   : ℚ → ℚ  -- cbrtf / cbrt
  cosf  : ℚ → ℚ
  acosf : ℚ → ℚ
  sinf  : ℚ → ℚ
  expf  : ℚ → ℚ
  logoPix : ℕ → ℕ  -- pixels of ../assets/logo.png
  redPix  : ℕ → ℕ  -- pixels of ../assets/red.png
  bluePix : ℕ → ℕ  -- pixels of ../assets/blue.png

/-- The template's `copysign( x, y )`: magnitude of `x`, sign of `y`
(ℚ has no negative zero, so the sign test is `y < 0`). -/
def copysignQ (x y : ℚ) : ℚ := if y < 0 then -|x| else |x|

/-- C truncation toward zero of a rational, as in `(int)x` / `(uint)x`. -/
def truncQ (x : ℚ) : ℤ := if 0 ≤ x then ⌊x⌋ else -⌊-x⌋

/-- C `fmodf( x, y )`: sign-preserving floating remainder
`x - trunc( x / y ) * y`. -/
def fmodQ (x y : ℚ) : ℚ := x - (truncQ (x / y) : ℚ) * y

/-- Row-major 4×4 matrix, the embedding of the template's `mat4`
(16 cells, `cell[4*row+col]`). -/
structure Mat4 where
  c0 : ℚ
  c1 : ℚ
  c2 : ℚ
  c3 : ℚ
  c4 : ℚ
  c5 : ℚ
  c6 : ℚ
  c7 : ℚ
  c8 : ℚ
  c9 : ℚ
  c10 : ℚ
  c11 : ℚ
  c12 : ℚ
  c13 : ℚ
  c14 : ℚ
  c15 : ℚ
deriving DecidableEq, Repr

/-- Modelled from the spec: `mat4::Identity()` of the template library
(the template's mat.h is not part of src/; the row-major layout is pinned
by the SIMD matrix code in `Cube::Intersect`). -/
def Mat4.identity : Mat4 :=
  ⟨1,0,0,0, 0,1,0,0, 0,0,1,0, 0,0,0,1⟩

/-- Modelled from the spec: `mat4::Translate( x, y, z )` of the template
library (affine translation in the fourth column of a row-major matrix). -/
def Mat4.translate (x y z : ℚ) : Mat4 :=
  ⟨1,0,0,x, 0,1,0,y, 0,0,1,z, 0,0,0,1⟩

/-- Modelled from the spec: `mat4::RotateX( a )` of the template library
(rotation about the x axis by angle `a`, via the cos/sin oracles). -/
def Mat4.rotateX (oc : Oracles) (a : ℚ) : Mat4 :=
  let ca := oc.cosf a
  let sa := oc.sinf a
  ⟨1,0,0,0, 0,ca,-sa,0, 0,sa,ca,0, 0,0,0,1⟩

/-- Modelled from the spec: `mat4::RotateY( a )` of the template library. -/
def Mat4.rotateY (oc : Oracles) (a : ℚ) : Mat4 :=
  let ca := oc.cosf a
  let sa := oc.sinf a
  ⟨ca,0,sa,0, 0,1,0,0, -sa,0,ca,0, 0,0,0,1⟩

/-- Modelled from the spec: `mat4::RotateZ( a )` of the template library. -/
def Mat4.rotateZ (oc : Oracles) (a : ℚ) : Mat4 :=
  let ca := oc.cosf a
  let sa := oc.sinf a
  ⟨ca,-sa,0,0, sa,ca,0,0, 0,0,1,0, 0,0,0,1⟩

/-- Modelled from the spec: `mat4 operator*` of the template library
(row-major matrix product). -/
def Mat4.mul (a b : Mat4) : Mat4 :=
  ⟨a.c0*b.c0 + a.c1*b.c4 + a.c2*b.c8 + a.c3*b.c12,
   a.c0*b.c1 + a.c1*b.c5 + a.c2*b.c9 + a.c3*b.c13,
   a.c0*b.c2 + a.c1*b.c6 + a.c2*b.c10 + a.c3*b.c14,
   a.c0*b.c3 + a.c1*b.c7 + a.c2*b.c11 + a.c3*b.c15,
   a.c4*b.c0 + a.c5*b.c4 + a.c6*b.c8 + a.c7*b.c12,
   a.c4*b.c1 + a.c5*b.c5 + a.c6*b.c9 + a.c7*b.c13,
   a.c4*b.c2 + a.c5*b.c6 + a.c6*b.c10 + a.c7*b.c14,
   a.c4*b.c3 + a.c5*b.c7 + a.c6*b.c11 + a.c7*b.c15,
   a.c8*b.c0 + a.c9*b.c4 + a.c10*b.c8 + a.c11*b.c12,
   a.c8*b.c1 + a.c9*b.c5 + a.c10*b.c9 + a.c11*b.c13,
   a.c8*b.c2 + a.c9*b.c6 + a.c10*b.c10 + a.c11*b.c14,
   a.c8*b.c3 + a.c9*b.c7 + a.c10*b.c11 + a.c11*b.c15,
   a.c12*b.c0 + a.c13*b.c4 + a.c14*b.c8 + a.c15*b.c12,
   a.c12*b.c1 + a.c13*b.c5 + a.c14*b.c9 + a.c15*b.c13,
   a.c12*b.c2 + a.c13*b.c6 + a.c14*b.c10 + a.c15*b.c14,
   a.c12*b.c3 + a.c13*b.c7 + a.c14*b.c11 + a.c15*b.c15⟩

instance : Mul Mat4 := ⟨Mat4.mul⟩

/-- Modelled from the spec: `mat4::FastInvertedTransformNoScale()` of the
template library — inverse of a rigid transform: transpose the 3×3 rotation
block and rotate the negated translation. -/
def Mat4.fastInvertedTransformNoScale (m : Mat4) : Mat4 :=
  ⟨m.c0, m.c4, m.c8,  -(m.c0*m.c3 + m.c4*m.c7 + m.c8*m.c11),
   m.c1, m.c5, m.c9,  -(m.c1*m.c3 + m.c5*m.c7 + m.c9*m.c11),
   m.c2, m.c6, m.c10, -(m.c2*m.c3 + m.c6*m.c7 + m.c10*m.c11),
   0, 0, 0, 1⟩

/-- The template's `TransformPosition( p, M )`: affine image of a point
under a row-major `mat4` (this layout is what the SIMD transpose-and-sum
code in `Cube::Intersect` computes for `ray.O4`, whose fourth lane is 1). -/
def TransformPosition (p : Vec3) (m : Mat4) : Vec3 :=
  ⟨m.c0*p.x + m.c1*p.y + m.c2*p.z + m.c3,
   m.c4*p.x + m.c5*p.y + m.c6*p.z + m.c7,
   m.c8*p.x + m.c9*p.y + m.c10*p.z + m.c11⟩

/-- The template's `TransformVector( v, M )`: linear image of a vector
(no translation; what the SIMD code in `Cube::Intersect` computes for
`ray.D4`, whose fourth lane is 0 and whose `v7` row is dropped). -/
def TransformVector (v : Vec3) (m : Mat4) : Vec3 :=
  ⟨m.c0*v.x + m.c1*v.y + m.c2*v.z,
   m.c4*v.x + m.c5*v.y + m.c6*v.z,
   m.c8*v.x + m.c9*v.y + m.c10*v.z⟩

/-- Embedding of `Tmpl8::Ray` (scene.h lines 32-56): origin, direction,
reciprocal direction, current nearest distance `t`, hit id `objIdx`,
inside-medium flag. -/
structure Ray where
  O : Vec3
  D : Vec3
  rD : Vec3
  t : ℚ
  objIdx : ℤ
  inside : Bool
deriving DecidableEq, Repr

/-- The `Ray( origin, direction, distance, idx )` constructor (scene.h
lines 35-43): stores the arguments and precomputes the reciprocal
direction; in the source `distance` defaults to `1e34f` and `idx` to `-1`,
here both are passed explicitly at every call site. -/
def mkRay (origin direction : Vec3) (distance : ℚ) (idx : ℤ) : Ray :=
  { O := origin, D := direction,
    rD := ⟨1 / direction.x, 1 / direction.y, 1 / direction.z⟩,
    t := distance, objIdx := idx, inside := false }

/-- Embedding of `Tmpl8::Sphere` (scene.h lines 63-119): center, squared
radius, reciprocal radius, id. -/
structure Sphere where
  pos : Vec3
  r2 : ℚ
  invr : ℚ
  objIdx : ℤ
deriving DecidableEq, Repr

/-- `Sphere::Intersect` (scene.h lines 70-93): near root first; if it
misses and the origin is outside (`c > 0`) give up, otherwise try the far
root (ray starting inside the sphere). -/
def Sphere.Intersect (o : Oracles) (s : Sphere) (ray : Ray) : Ray :=
  let oc := ray.O - s.pos
  let b := dot3 oc ray.D
  let c := dot3 oc oc - s.r2
  let d := b * b - c
  if d ≤ 0 then ray else
  let d := o.sqf d
  let t := -b - d
  if t < ray.t ∧ t > 0 then { ray with t := t, objIdx := s.objIdx }
  else if c > 0 then ray
  else
    let t := d - b
    if t < ray.t ∧ t > 0 then { ray with t := t, objIdx := s.objIdx }
    else ray

/-- `Sphere::IsOccluded` (scene.h lines 95-106): tests only the near
root `-b - d`. -/
def Sphere.IsOccluded (o : Oracles) (s : Sphere) (ray : Ray) : Bool :=
  let oc := ray.O - s.pos
  let b := dot3 oc ray.D
  let c := dot3 oc oc - s.r2
  let d := b * b - c
  if d ≤ 0 then false else
  let d := o.sqf d
  let t := -b - d
  decide (t < ray.t ∧ t > 0)

/-- `Sphere::GetNormal` (scene.h lines 108-110). -/
def Sphere.GetNormal (s : Sphere) (I : Vec3) : Vec3 :=
  s.invr • (I - s.pos)

/-- `Sphere::GetAlbedo` (scene.h lines 112-114). -/
def Sphere.GetAlbedo (_s : Sphere) (_I : Vec3) : Vec3 :=
  ⟨0.93, 0.93, 0.93⟩

/-- Embedding of `Tmpl8::Plane` (scene.h lines 126-179). -/
structure Plane where
  N : Vec3
  d : ℚ
  objIdx : ℤ
deriving DecidableEq, Repr

/-- `Plane::Intersect` (scene.h lines 130-136). -/
def Plane.Intersect (p : Plane) (ray : Ray) : Ray :=
  let t := -(dot3 ray.O p.N + p.d) / dot3 ray.D p.N
  if t < ray.t ∧ t > 0 then { ray with t := t, objIdx := p.objIdx } else ray

/-- Embedding of `Tmpl8::Cube` (scene.h lines 187-333): bounds `b[0]`,
`b[1]` (the xyz lanes of `bmin4` / `bmax4`), transform and inverse. -/
structure Cube where
  b0 : Vec3
  b1 : Vec3
  M : Mat4
  invM : Mat4
  objIdx : ℤ
deriving DecidableEq, Repr

/-- The SPEEDTRIX slab-test core shared by `Cube::Intersect` and
`Cube::IsOccluded` (scene.h lines 202-223 and 261-282): transform the ray
into object space with `invM`, intersect the three slabs with reciprocal
directions, return `(tmin, tmax)`.  The `_mm_rcp_ps` of `IsOccluded` is an
exact reciprocal in this model. -/
def cubeSlab (c : Cube) (ray : Ray) : ℚ × ℚ :=
  let o := TransformPosition ray.O c.invM
  let d := TransformVector ray.D c.invM
  let rd : Vec3 := ⟨1 / d.x, 1 / d.y, 1 / d.z⟩
  let t1 : Vec3 := (c.b0 - o) * rd
  let t2 : Vec3 := (c.b1 - o) * rd
  let vmax : Vec3 := ⟨max t1.x t2.x, max t1.y t2.y, max t1.z t2.z⟩
  let vmin : Vec3 := ⟨min t1.x t2.x, min t1.y t2.y, min t1.z t2.z⟩
  let tmax := min vmax.x (min vmax.y vmax.z)
  let tmin := max vmin.x (max vmin.y vmin.z)
  (tmin, tmax)

/-- `Cube::Intersect` (scene.h lines 197-256, SPEEDTRIX path): accept the
entering distance `tmin` when positive, else the exiting distance `tmax`
when positive, each only when closer than `ray.t`. -/
def Cube.Intersect (c : Cube) (ray : Ray) : Ray :=
  let s := cubeSlab c ray
  let tmin := s.1
  let tmax := s.2
  if tmin < tmax then
    if tmin > 0 then
      if tmin < ray.t then { ray with t := tmin, objIdx := c.objIdx } else ray
    else if tmax > 0 then
      if tmax < ray.t then { ray with t := tmax, objIdx := c.objIdx } else ray
    else ray
  else ray

/-- `Cube::IsOccluded` (scene.h lines 258-295, SPEEDTRIX path). -/
def Cube.IsOccluded (c : Cube) (ray : Ray) : Bool :=
  let s := cubeSlab c ray
  let tmin := s.1
  let tmax := s.2
  decide (tmax > 0 ∧ tmin < tmax ∧ tmin < ray.t)

/-- `Cube::GetNormal` (scene.h lines 297-319): nearest axis-aligned face of
the object-space hit point, transformed back to world space. -/
def Cube.GetNormal (c : Cube) (I : Vec3) : Vec3 :=
  let objI := TransformPosition I c.invM
  let d0 := |objI.x - c.b0.x|
  let d1 := |objI.x - c.b1.x|
  let d2 := |objI.y - c.b0.y|
  let d3 := |objI.y - c.b1.y|
  let d4 := |objI.z - c.b0.z|
  let d5 := |objI.z - c.b1.z|
  let s0 : ℚ × Vec3 := (d0, ⟨-1, 0, 0⟩)
  let s1 := if d1 < s0.1 then (d1, (⟨1, 0, 0⟩ : Vec3)) else s0
  let s2 := if d2 < s1.1 then (d2, (⟨0, -1, 0⟩ : Vec3)) else s1
  let s3 := if d3 < s2.1 then (d3, (⟨0, 1, 0⟩ : Vec3)) else s2
  let s4 := if d4 < s3.1 then (d4, (⟨0, 0, -1⟩ : Vec3)) else s3
  let s5 := if d5 < s4.1 then (d5, (⟨0, 0, 1⟩ : Vec3)) else s4
  TransformVector s5.2 c.M

/-- `Cube::GetAlbedo` (scene.h lines 321-323). -/
def Cube.GetAlbedo (_c : Cube) (_I : Vec3) : Vec3 := ⟨1, 1, 1⟩

/-- Embedding of `Tmpl8::Quad` (scene.h lines 339-396): half-extent `size`,
transform `T` and inverse `invT`. -/
structure Quad where
  size : ℚ
  T : Mat4
  invT : Mat4
  objIdx : ℤ
deriving DecidableEq, Repr

/-- `Quad::Intersect` (scene.h lines 349-365): plane crossing in local
space (`t = Oy / -Dy`), then the local X/Z bounds check. -/
def Quad.Intersect (q : Quad) (ray : Ray) : Ray :=
  let Oy := q.invT.c4 * ray.O.x + q.invT.c5 * ray.O.y + q.invT.c6 * ray.O.z + q.invT.c7
  let Dy := q.invT.c4 * ray.D.x + q.invT.c5 * ray.D.y + q.invT.c6 * ray.D.z
  let t := Oy / -Dy
  if t < ray.t ∧ t > 0 then
    let Ox := q.invT.c0 * ray.O.x + q.invT.c1 * ray.O.y + q.invT.c2 * ray.O.z + q.invT.c3
    let Oz := q.invT.c8 * ray.O.x + q.invT.c9 * ray.O.y + q.invT.c10 * ray.O.z + q.invT.c11
    let Dx := q.invT.c0 * ray.D.x + q.invT.c1 * ray.D.y + q.invT.c2 * ray.D.z
    let Dz := q.invT.c8 * ray.D.x + q.invT.c9 * ray.D.y + q.invT.c10 * ray.D.z
    let Ix := Ox + t * Dx
    let Iz := Oz + t * Dz
    if Ix > -q.size ∧ Ix < q.size ∧ Iz > -q.size ∧ Iz < q.size then
      { ray with t := t, objIdx := q.objIdx }
    else ray
  else ray

/-- `Quad::IsOccluded` (scene.h lines 367-382): same computation as
`Quad::Intersect`, returning the bounds check as a Bool. -/
def Quad.IsOccluded (q : Quad) (ray : Ray) : Bool :=
  let Oy := q.invT.c4 * ray.O.x + q.invT.c5 * ray.O.y + q.invT.c6 * ray.O.z + q.invT.c7
  let Dy := q.invT.c4 * ray.D.x + q.invT.c5 * ray.D.y + q.invT.c6 * ray.D.z
  let t := Oy / -Dy
  if t < ray.t ∧ t > 0 then
    let Ox := q.invT.c0 * ray.O.x + q.invT.c1 * ray.O.y + q.invT.c2 * ray.O.z + q.invT.c3
    let Oz := q.invT.c8 * ray.O.x + q.invT.c9 * ray.O.y + q.invT.c10 * ray.O.z + q.invT.c11
    let Dx := q.invT.c0 * ray.D.x + q.invT.c1 * ray.D.y + q.invT.c2 * ray.D.z
    let Dz := q.invT.c8 * ray.D.x + q.invT.c9 * ray.D.y + q.invT.c10 * ray.D.z
    let Ix := Ox + t * Dx
    let Iz := Oz + t * Dz
    decide (Ix > -q.size ∧ Ix < q.size ∧ Iz > -q.size ∧ Iz < q.size)
  else false

/-- `Quad::GetNormal` (scene.h lines 384-387). -/
def Quad.GetNormal (q : Quad) (_I : Vec3) : Vec3 :=
  ⟨-q.T.c1, -q.T.c5, -q.T.c9⟩

/-- `Quad::GetAlbedo` (scene.h lines 389-391). -/
def Quad.GetAlbedo (_q : Quad) (_I : Vec3) : Vec3 := ⟨10, 10, 10⟩

/-- Embedding of `Tmpl8::Torus` (scene.h lines 401-591). -/
structure Torus where
  rt2 : ℚ
  rc2 : ℚ
  r2 : ℚ
  objIdx : ℤ
  T : Mat4
  invT : Mat4
deriving DecidableEq, Repr

/-- The candidate-selection tail of `Torus::Intersect` (scene.h lines
470-497): starting from `t = 1e20`, fold the up-to-four quartic roots with
positivity guards (and the `2/t` flip of the reparametrised `po < 0`
branch), then record the result when `0 < t < ray.t`. -/
def torusCommit (o : Oracles) (tor : Torus) (ray : Ray)
    (po z k3 d1 d2 : ℚ) : Ray :=
  let t : ℚ := 1e20
  let h := d1 * d1 - z + d2
  let t :=
    if h > 0 then
      let h := o.sqf h
      let t1 := -d1 - h - k3
      let t2 := -d1 + h - k3
      let t1 := if po < 0 then 2 / t1 else t1
      let t2 := if po < 0 then 2 / t2 else t2
      let t := if t1 > 0 then t1 else t
      if t2 > 0 then min t t2 else t
    else t
  let h := d1 * d1 - z - d2
  let t :=
    if h > 0 then
      let h := o.sqf h
      let t1 := d1 - h - k3
      let t2 := d1 + h - k3
      let t1 := if po < 0 then 2 / t1 else t1
      let t2 := if po < 0 then 2 / t2 else t2
      let t := if t1 > 0 then min t t1 else t
      if t2 > 0 then min t t2 else t
    else t
  if t > 0 ∧ t < ray.t then { ray with t := t, objIdx := tor.objIdx } else ray

/-- `Torus::Intersect` (scene.h lines 410-498): hardcoded inverse
transform, bounding-sphere rejection, quartic solve via the resolvent
cubic (double precision in the source, exact here), near-zero pivot
switching to the reciprocal parametrisation (`po = -1`). -/
def Torus.Intersect (o : Oracles) (tor : Torus) (ray : Ray) : Ray :=
  let O : Vec3 := ⟨ray.O.x + 0.25,
    0.707106829 * ray.O.y + 0.707106829 * ray.O.z - 1.41421366,
    -0.707106829 * ray.O.y + 0.707106829 * ray.O.z - 1.41421366⟩
  let D : Vec3 := ⟨ray.D.x,
    0.707106829 * ray.D.y + 0.707106829 * ray.D.z,
    -0.707106829 * ray.D.y + 0.707106829 * ray.D.z⟩
  let m := dot3 O O
  let k3 := dot3 O D
  let k32 := k3 * k3
  if k32 < m - 1.10249984 then ray else
  let k := (m - 0.0625 - 0.640000045) * 0.5
  let k2 := k32 + 0.640000045 * D.z * D.z + k
  let k1 := k * k3 + 0.640000045 * O.z * D.z
  let k0 := k * k + 0.640000045 * O.z * O.z - 0.640000045 * 0.0625
  let pk : ℚ × ℚ × ℚ × ℚ × ℚ :=
    if |k3 * (k32 - k2) + k1| < 0.0001 then
      let k0n := 1 / k0
      (-1, k0n, k3 * k0n, k2 * k0n, k1 * k0n)
    else (1, k0, k1, k2, k3)
  let po := pk.1
  let k0 := pk.2.1
  let k1 := pk.2.2.1
  let k2 := pk.2.2.2.1
  let k3 := pk.2.2.2.2
  let k32 := k3 * k3
  let c2 := (2 * k2 - 3 * k32) * 0.33333333333
  let c1 := (k3 * (k32 - k2) + k1) * 2
  let c0 := (k3 * (k3 * (-3 * k32 + 4 * k2) - 8 * k1) + 4 * k0) * 0.33333333333
  let Q := c2 * c2 + c0
  let R := 3 * c0 * c2 - c2 * c2 * c2 - c1 * c1
  let h := R * R - Q * Q * Q
  let z :=
    if h < 0 then
      let sQ := o.sqf Q
      2 * sQ * o.cosf (o.acosf (R / (sQ * Q)) * 0.33333333333)
    else
      let sQ := o.cbf (o.sqf h + |R|)
      copysignQ |sQ + Q / sQ| R
  let z := c2 - z
  let d1 := z - 3 * c2
  let d2 := z * z - 3 * c0
  if |d1| < 1e-8 then
    if d2 < 0 then ray else torusCommit o tor ray po z k3 d1 (o.sqf d2)
  else
    if d1 < 0 then ray
    else
      let d1 := o.sqf (d1 * 0.5)
      torusCommit o tor ray po z k3 d1 (c1 / d1)

/-- `Torus::IsOccluded` (scene.h lines 500-576): the same solver in single
precision (wider pivot thresholds `0.01f` and `1e-4f`), testing only the
two `t1` candidates and short-circuiting to true. -/
def Torus.IsOccluded (o : Oracles) (_tor : Torus) (ray : Ray) : Bool :=
  let O : Vec3 := ⟨ray.O.x + 0.25,
    0.707106829 * ray.O.y + 0.707106829 * ray.O.z - 1.41421366,
    -0.707106829 * ray.O.y + 0.707106829 * ray.O.z - 1.41421366⟩
  let D : Vec3 := ⟨ray.D.x,
    0.707106829 * ray.D.y + 0.707106829 * ray.D.z,
    -0.707106829 * ray.D.y + 0.707106829 * ray.D.z⟩
  let m := dot3 O O
  let k3 := dot3 O D
  let k32 := k3 * k3
  if k32 < m - 1.10249984 then false else
  let k := (m - 0.0625 - 0.640000045) * 0.5
  let k2 := k32 + 0.640000045 * D.z * D.z + k
  let k1 := k * k3 + 0.640000045 * O.z * D.z
  let k0 := k * k + 0.640000045 * O.z * O.z - 0.640000045 * 0.0625
  let pk : ℚ × ℚ × ℚ × ℚ × ℚ :=
    if |k3 * (k32 - k2) + k1| < 0.01 then
      let k0n := 1 / k0
      (-1, k0n, k3 * k0n, k2 * k0n, k1 * k0n)
    else (1, k0, k1, k2, k3)
  let po := pk.1
  let k0 := pk.2.1
  let k1 := pk.2.2.1
  let k2 := pk.2.2.2.1
  let k3 := pk.2.2.2.2
  let k32 := k3 * k3
  let c2 := (2 * k2 - 3 * k32) * 0.33333333333
  let c1 := (k3 * (k32 - k2) + k1) * 2
  let c0 := (k3 * (k3 * (-3 * k32 + 4 * k2) - 8 * k1) + 4 * k0) * 0.33333333333
  let Q := c2 * c2 + c0
  let R := 3 * c0 * c2 - c2 * c2 * c2 - c1 * c1
  let h := R * R - Q * Q * Q
  let z :=
    if h < 0 then
      let sQ := o.sqf Q
      2 * sQ * o.cosf (o.acosf (R / (sQ * Q)) * 0.3333333)
    else
      let sQ := o.cbf (o.sqf h + |R|)
      copysignQ |sQ + Q / sQ| R
  let z := c2 - z
  let d1 := z - 3 * c2
  let d2 := z * z - 3 * c0
  let dd : Option (ℚ × ℚ) :=
    if |d1| < 1e-4 then
      if d2 < 0 then none else some (d1, o.sqf d2)
    else
      if d1 < 0 then none
      else
        let d1 := o.sqf (d1 * 0.5)
        some (d1, c1 / d1)
  match dd with
  | none => false
  | some (d1, d2) =>
    let h1 := d1 * d1 - z + d2
    let hit1 :=
      if h1 > 0 then
        let t1 := -d1 - o.sqf h1 - k3
        let t1 := if po < 0 then 2 / t1 else t1
        decide (t1 > 0 ∧ t1 < ray.t)
      else false
    if hit1 then true else
    let h2 := d1 * d1 - z - d2
    if h2 > 0 then
      let t1 := d1 - o.sqf h2 - k3
      let t1 := if po < 0 then 2 / t1 else t1
      decide (t1 > 0 ∧ t1 < ray.t)
    else false

/-- The template's `normalize( v )`: `v` scaled by the reciprocal of its
length (length through the sqrt oracle). -/
def normalizeQ (o : Oracles) (v : Vec3) : Vec3 :=
  (1 / o.sqf (dot3 v v)) • v

/-- `Torus::GetNormal` (scene.h lines 578-582). -/
def Torus.GetNormal (o : Oracles) (tor : Torus) (I : Vec3) : Vec3 :=
  let L := TransformPosition I tor.invT
  let s := dot3 L L - 0.0625
  let N := normalizeQ o (L * ⟨s - 0.640000045, s - 0.640000045, s + 0.640000045⟩)
  TransformVector N tor.T

/-- `Torus::GetAlbedo` (scene.h lines 584-586). -/
def Torus.GetAlbedo (_tor : Torus) (_I : Vec3) : Vec3 := ⟨1, 1, 1⟩

/-- The `Sphere( idx, p, r )` constructor (scene.h lines 66-68). -/
def mkSphere (idx : ℤ) (p : Vec3) (r : ℚ) : Sphere :=
  { pos := p, r2 := r * r, invr := 1 / r, objIdx := idx }

/-- The `Cube( idx, pos, size, transform )` constructor (scene.h lines
190-196). -/
def mkCube (idx : ℤ) (pos size : Vec3) (transform : Mat4) : Cube :=
  { b0 := pos - (0.5 : ℚ) • size, b1 := pos + (0.5 : ℚ) • size,
    M := transform, invM := transform.fastInvertedTransformNoScale,
    objIdx := idx }

/-- The `Quad( idx, s, transform )` constructor (scene.h lines 342-347). -/
def mkQuad (idx : ℤ) (s : ℚ) (transform : Mat4) : Quad :=
  { objIdx := idx, size := s * 0.5, T := transform,
    invT := transform.fastInvertedTransformNoScale }

/-- Modelled from the spec: the template's `PI` constant (the float32
value of π; the template header defining it is not part of src/). -/
def PIq : ℚ := 13176795 / 4194304

/-- The template's `sqrf( x )` square helper. -/
def sqrf (x : ℚ) : ℚ := x * x

/-- Embedding of the `Tmpl8::Scene` aggregate state (scene.h lines
600-890, FOURLIGHTS layout): the four light quads, the two spheres, the
cube, the six planes, the torus, and the animation clock. -/
structure Scene where
  animTime : ℚ
  quad : Fin 4 → Quad
  sphere : Sphere
  sphere2 : Sphere
  cube : Cube
  plane : Fin 6 → Plane
  torus : Torus

/-- `Scene::SetTime` (scene.h lines 626-643, FOURLIGHTS: no quad swing):
rewrites the animation clock, the cube spin transform and its inverse, and
the bouncing-sphere position, each as a function of `t` alone. -/
def Scene.SetTime (o : Oracles) (s : Scene) (t : ℚ) : Scene :=
  let M2base := Mat4.rotateX o (PIq / 4) * Mat4.rotateZ o (PIq / 4)
  let M2 := Mat4.translate 1.8 0 2.5 * Mat4.rotateY o (t * 0.5) * M2base
  let tm := 1 - sqrf (fmodQ t 2 - 1)
  { s with
    animTime := t
    cube := { s.cube with
              M := M2
              invM := M2.fastInvertedTransformNoScale }
    sphere := { s.sphere with pos := ⟨-1.8, -0.4 + tm, 1⟩ } }

/-- `Scene::GetLightPos` (scene.h lines 645-655): under FOURLIGHTS the
function is documented as not valid and returns the origin. -/
def Scene.GetLightPos (_s : Scene) : Vec3 := ⟨0, 0, 0⟩

/-- `Scene::GetLightColor` (scene.h lines 700-702). -/
def Scene.GetLightColor (_s : Scene) : Vec3 := ⟨24, 24, 22⟩

/-- `Scene::RandomPointOnLight( r0, r1 )` (scene.h lines 657-679,
FOURLIGHTS path): `lightIdx = (uint)( r0 * 4 )` selects the quad, the
remainder of `r0` is rescaled by `1 / ( 1 - stratum )` and reused as the
within-quad coordinate.  The quad array access is in range for the
`r0 ∈ [0,1)` contract; it is wrapped modulo 4 here to stay total. -/
def Scene.RandomPointOnLight (s : Scene) (r0 r1 : ℚ) : Vec3 :=
  let lightIdx : ℕ := (truncQ (r0 * 4)).toNat
  let q := s.quad ⟨lightIdx % 4, Nat.mod_lt _ (by norm_num)⟩
  let stratum := (lightIdx : ℚ) * 0.25
  let r2 := (r0 - stratum) / (1 - stratum)
  let size := q.size
  let corner1 := TransformPosition ⟨-size, 0, -size⟩ q.T
  let corner2 := TransformPosition ⟨size, 0, -size⟩ q.T
  let corner3 := TransformPosition ⟨-size, 0, size⟩ q.T
  corner1 + r2 • (corner2 - corner1) + r1 • (corner3 - corner1)

/-- The `PLANE_X( o, i )` macro (scene.h line 26). -/
def planeMacroX (o : ℚ) (i : ℤ) (ray : Ray) : Ray :=
  let t := -(ray.O.x + o) * ray.rD.x
  if t < ray.t ∧ t > 0 then { ray with t := t, objIdx := i } else ray

/-- The `PLANE_Y( o, i )` macro (scene.h line 27). -/
def planeMacroY (o : ℚ) (i : ℤ) (ray : Ray) : Ray :=
  let t := -(ray.O.y + o) * ray.rD.y
  if t < ray.t ∧ t > 0 then { ray with t := t, objIdx := i } else ray

/-- The `PLANE_Z( o, i )` macro (scene.h line 28). -/
def planeMacroZ (o : ℚ) (i : ℤ) (ray : Ray) : Ray :=
  let t := -(ray.O.z + o) * ray.rD.z
  if t < ray.t ∧ t > 0 then { ray with t := t, objIdx := i } else ray

/-- The per-lane hit-and-valid mask of the FOURLIGHTS quad SIMD block
(scene.h lines 746-751 and 809-814): the four light quads lie at height
`y = 1.5` with centers offset per lane by the constants
`{ 1, -1, -1, 1 }` in x and `{ 1, 1, -1, -1 }` in z and have half size
`0.25`; `tq` and the valid mask are computed from the ray state at block
entry.  `ox` and `oz` are one lane's offsets. -/
def quadLaneMask (ray : Ray) (ox oz : ℚ) : Bool :=
  let tq := (ray.O.y + -1.5) / -ray.D.y
  let Ix := ray.O.x + ox + tq * ray.D.x
  let Iz := ray.O.z + oz + tq * ray.D.z
  decide ((Ix > -0.25 ∧ Ix < 0.25 ∧ Iz > -0.25 ∧ Iz < 0.25) ∧
          tq < ray.t ∧ tq > 0)

/-- `Scene::FindNearest` (scene.h lines 728-790, SPEEDTRIX + FOURLIGHTS):
one wall plane per axis picked by direction sign, the four hardcoded light
quads, the two hardcoded sphere tests (near root for the bouncing ball,
far root for the rounded-corner sphere), then the cube and the torus. -/
def Scene.FindNearest (o : Oracles) (s : Scene) (ray0 : Ray) : Ray :=
  let ray := if ray0.D.x < 0 then planeMacroX 3 4 ray0 else planeMacroX (-2.99) 5 ray0
  let ray := if ray.D.y < 0 then planeMacroY 1 6 ray else planeMacroY (-2) 7 ray
  let ray := if ray.D.z < 0 then planeMacroZ 3 8 ray else planeMacroZ (-3.99) 9 ray
  -- FOURLIGHTS quad block: ft4 lanes are tq where masked, 1e34 elsewhere,
  -- then folded sequentially against ray.t
  let tq := (ray.O.y + -1.5) / -ray.D.y
  let ft0 := if quadLaneMask ray 1 1 then tq else 1e34
  let ft1 := if quadLaneMask ray (-1) 1 then tq else 1e34
  let ft2 := if quadLaneMask ray (-1) (-1) then tq else 1e34
  let ft3 := if quadLaneMask ray 1 (-1) then tq else 1e34
  let ray := if ft0 < ray.t then { ray with t := ft0, objIdx := 0 } else ray
  let ray := if ft1 < ray.t then { ray with t := ft1, objIdx := 0 } else ray
  let ray := if ft2 < ray.t then { ray with t := ft2, objIdx := 0 } else ray
  let ray := if ft3 < ray.t then { ray with t := ft3, objIdx := 0 } else ray
  -- hardcoded bouncing-ball test (near root only)
  let ray :=
    let oc := ray.O - s.sphere.pos
    let b := dot3 oc ray.D
    let c := dot3 oc oc - 0.6 * 0.6
    let d := b * b - c
    if d > 0 then
      let t := -b - o.sqf d
      if t < ray.t ∧ t > 0 then { ray with t := t, objIdx := 1 } else ray
    else ray
  -- hardcoded rounded-corner sphere test (far root only)
  let ray :=
    let oc := ray.O - (⟨0, 2.5, -3.07⟩ : Vec3)
    let b := dot3 oc ray.D
    let c := dot3 oc oc - 8 * 8
    let d := b * b - c
    if d > 0 then
      let t := o.sqf d - b
      if t < ray.t ∧ t > 0 then { ray with t := t, objIdx := 2 } else ray
    else ray
  let ray := s.cube.Intersect ray
  s.torus.Intersect o ray

/-- `Scene::IsOccluded` (scene.h lines 792-822, SPEEDTRIX + FOURLIGHTS):
cube, then the hardcoded near-root bouncing-ball test, then the four
hardcoded light quads, then the torus; walls and the rounded-corner
sphere are deliberately skipped. -/
def Scene.IsOccluded (o : Oracles) (s : Scene) (ray : Ray) : Bool :=
  if s.cube.IsOccluded ray then true
  else
    let occSphere :=
      let oc := ray.O - s.sphere.pos
      let b := dot3 oc ray.D
      let c := dot3 oc oc - 0.6 * 0.6
      let d := b * b - c
      if d > 0 then
        let t := -b - o.sqf d
        decide (t < ray.t ∧ t > 0)
      else false
    if occSphere then true
    else
      if quadLaneMask ray 1 1 ∨ quadLaneMask ray (-1) 1 ∨
         quadLaneMask ray (-1) (-1) ∨ quadLaneMask ray 1 (-1) then true
      else
        if s.torus.IsOccluded o ray then true else false

/-- The plane-normal shortcut of `Scene::GetNormal` (scene.h lines
838-842): `N[( objIdx - 4 ) / 2] = 1 - 2 * ( objIdx & 1 )` with C
truncating division and two's-complement low bit.  Component indices
outside 0..2 (never produced by valid plane ids 4..9) yield the zero
vector to stay total. -/
def planeNormalOf (objIdx : ℤ) : Vec3 :=
  let k := Int.tdiv (objIdx - 4) 2
  let v : ℚ := 1 - 2 * (Int.emod objIdx 2 : ℤ)
  if k = 0 then ⟨v, 0, 0⟩
  else if k = 1 then ⟨0, v, 0⟩
  else if k = 2 then ⟨0, 0, v⟩
  else ⟨0, 0, 0⟩

/-- `Scene::GetNormal` (scene.h lines 824-846): dispatch on the hit id
(zero vector for `-1`), then flip the normal when it points along the
incoming direction `wo`. -/
def Scene.GetNormal (o : Oracles) (s : Scene) (objIdx : ℤ) (I wo : Vec3) : Vec3 :=
  if objIdx = -1 then ⟨0, 0, 0⟩ else
  let N :=
    if objIdx = 0 then (s.quad 0).GetNormal I
    else if objIdx = 1 then s.sphere.GetNormal I
    else if objIdx = 2 then s.sphere2.GetNormal I
    else if objIdx = 3 then s.cube.GetNormal I
    else if objIdx = 10 then s.torus.GetNormal o I
    else planeNormalOf objIdx
  if dot3 N wo > 0 then -N else N

/-- `Plane::GetAlbedo` (scene.h lines 142-174): checkerboard floor with
two deliberately aliased tiles, textured back/left/right walls through the
pixel oracles, `0.93` otherwise. -/
def Plane.GetAlbedo (o : Oracles) (p : Plane) (I : Vec3) : Vec3 :=
  if p.N.y = 1 then
    let ix0 := truncQ (I.x * 2 + 96.01)
    let iz0 := truncQ (I.z * 2 + 96.01)
    let p1 : ℤ × ℤ :=
      if ix0 = 98 ∧ iz0 = 98 then (truncQ (I.x * 32.01), truncQ (I.z * 32.01))
      else (ix0, iz0)
    let p2 : ℤ × ℤ :=
      if p1.1 = 94 ∧ p1.2 = 98 then (truncQ (I.x * 64.01), truncQ (I.z * 64.01))
      else p1
    if Int.emod (p2.1 + p2.2) 2 = 1 then ⟨1, 1, 1⟩ else ⟨0.3, 0.3, 0.3⟩
  else if p.N.z = -1 then
    let ix := truncQ ((I.x + 4) * (128 / 8))
    let iy := truncQ ((2 - I.y) * (64 / 3))
    let px := o.logoPix ((Int.emod ix 128) + (Int.emod iy 64) * 128).toNat
    (1 / 255 : ℚ) • ⟨((px >>> 16) % 256 : ℕ), ((px >>> 8) % 256 : ℕ), (px % 256 : ℕ)⟩
  else if p.N.x = 1 then
    let ix := truncQ ((I.z - 4) * (512 / 7))
    let iy := truncQ ((2 - I.y) * (512 / 3))
    let px := o.redPix ((Int.emod ix 512) + (Int.emod iy 512) * 512).toNat
    (1 / 255 : ℚ) • ⟨((px >>> 16) % 256 : ℕ), ((px >>> 8) % 256 : ℕ), (px % 256 : ℕ)⟩
  else if p.N.x = -1 then
    let ix := truncQ ((I.z - 4) * (512 / 7))
    let iy := truncQ ((2 - I.y) * (512 / 3))
    let px := o.bluePix ((Int.emod ix 512) + (Int.emod iy 512) * 512).toNat
    (1 / 255 : ℚ) • ⟨((px >>> 16) % 256 : ℕ), ((px >>> 8) % 256 : ℕ), (px % 256 : ℕ)⟩
  else ⟨0.93, 0.93, 0.93⟩

/-- `Scene::GetAlbedo` (scene.h lines 848-862): zero vector for `-1`,
otherwise dispatch by id; ids above 3 other than 10 index the plane array
(wrapped modulo 6 here to stay total; valid plane ids 4..9 are in range). -/
def Scene.GetAlbedo (o : Oracles) (s : Scene) (objIdx : ℤ) (I : Vec3) : Vec3 :=
  if objIdx = -1 then ⟨0, 0, 0⟩
  else if objIdx = 0 then (s.quad 0).GetAlbedo I
  else if objIdx = 1 then s.sphere.GetAlbedo I
  else if objIdx = 2 then s.sphere2.GetAlbedo I
  else if objIdx = 3 then s.cube.GetAlbedo I
  else if objIdx = 10 then s.torus.GetAlbedo I
  else (s.plane ⟨(objIdx - 4).toNat % 6, Nat.mod_lt _ (by norm_num)⟩).GetAlbedo o I

/-- `Scene::GetReflectivity` (scene.h lines 864-868): 1 for the ball,
0.3 for the floor, 0 otherwise. -/
def Scene.GetReflectivity (_s : Scene) (objIdx : ℤ) (_I : Vec3) : ℚ :=
  if objIdx = 1 then 1
  else if objIdx = 6 then 0.3
  else 0

/-- `Scene::GetRefractivity` (scene.h lines 870-872): 1 for the cube and
the torus, 0 otherwise. -/
def Scene.GetRefractivity (_s : Scene) (objIdx : ℤ) (_I : Vec3) : ℚ :=
  if objIdx = 3 ∨ objIdx = 10 then 1 else 0

/-- `Scene::GetAbsorption` (scene.h lines 874-876). -/
def Scene.GetAbsorption (_s : Scene) (objIdx : ℤ) : Vec3 :=
  if objIdx = 3 then ⟨0.5, 0, 0.5⟩ else ⟨0, 0, 0⟩

/-- Modelled from the spec: the template's `reflect( D, N )` vector helper
(mirror reflection about the normal; template header not in src/). -/
def reflectQ (D N : Vec3) : Vec3 :=
  D - (2 * dot3 D N) • N

/-- Modelled from the spec: the template's `INVPI` constant (the float32
value of 1/π; template header not in src/). -/
def INVPIq : ℚ := 0.31830988618379067154

/-- `Renderer::DirectIllumination` (renderer.cpp lines 23-44): direction
and distance to the scene light position, epsilon-offset shadow ray of
length `distance - 2 * EPSILON`, inverse-square irradiance when
unoccluded.  `EPSILON` is a template constant not in src/ and is passed
as the parameter `eps`; `length( L )` is the sqrt oracle applied to
`dot( L, L )`. -/
def Renderer.DirectIllumination (o : Oracles) (eps : ℚ) (s : Scene)
    (I N : Vec3) : Vec3 :=
  let pointOnLight := s.GetLightPos
  let L := pointOnLight - I
  let distance := o.sqf (dot3 L L)
  let L := (1 / distance) • L
  let ndotl := dot3 N L
  if ndotl < eps then ⟨0, 0, 0⟩ else
  let sray := mkRay (I + eps • L) L (distance - 2 * eps) (-1)
  if ¬ (Scene.IsOccluded o s sray) then
    let attenuation := 1 / (distance * distance)
    let in_radiance := attenuation • s.GetLightColor
    ndotl • in_radiance
  else ⟨0, 0, 0⟩

/-- `Renderer::Trace` (renderer.cpp lines 49-112), fuel-indexed body:
find the nearest hit, return zero radiance on escape (`objIdx == -1`) or
depth overflow (`depth > MAXDEPTH`), otherwise compose the reflective,
refractive (Fresnel-blended, with total internal reflection) and diffuse
components and scale by Beer-Lambert absorption when inside the medium.
`MAXDEPTH` and `EPSILON` are template constants not in src/ and are
passed as the parameters `maxd` and `eps`.  The source recursion is
bounded by the `depth > MAXDEPTH` cutoff alone; here the same bound is
carried as a structural `fuel` argument which `Renderer.Trace` sets to
`maxd + 1 - depth`, so along every recursive call (which only happens
when `depth ≤ maxd`, with `fuel` positive) the inner `fuel = 0` case is
unreachable. -/
def Renderer.TraceFuel (o : Oracles) (eps : ℚ) (maxd : ℕ) (s : Scene) :
    ℕ → Ray → ℕ → Vec3
  | fuel, ray, depth =>
    let r := Scene.FindNearest o s ray
    if r.objIdx = -1 then ⟨0, 0, 0⟩
    else if maxd < depth then ⟨0, 0, 0⟩
    else
      match fuel with
      | 0 => ⟨0, 0, 0⟩
      | fuel + 1 =>
        let I := r.O + r.t • r.D
        let N := Scene.GetNormal o s r.objIdx I r.D
        let albedo := Scene.GetAlbedo o s r.objIdx I
        let reflectivity := Scene.GetReflectivity s r.objIdx I
        let refractivity := Scene.GetRefractivity s r.objIdx I
        let diffuseness := 1 - (reflectivity + refractivity)
        let outReflect : Vec3 :=
          if reflectivity > 0 then
            let R := reflectQ r.D N
            reflectivity • (albedo * Renderer.TraceFuel o eps maxd s fuel
              (mkRay (I + eps • R) R 1e34 (-1)) (depth + 1))
          else ⟨0, 0, 0⟩
        let outRefract : Vec3 :=
          if refractivity > 0 then
            let R := reflectQ r.D N
            let rr := mkRay (I + eps • R) R 1e34 (-1)
            let n1 : ℚ := if r.inside then 1.2 else 1
            let n2 : ℚ := if r.inside then 1 else 1.2
            let eta := n1 / n2
            let cosi := dot3 (-r.D) N
            let cost2 := 1 - eta * eta * (1 - cosi * cosi)
            -- Fr = 1 unless cost2 > 0, where Schlick applies and the
            -- refracted ray contributes with weight 1 - Fr
            let frAndT : ℚ × Vec3 :=
              if cost2 > 0 then
                let a := n1 - n2
                let b := n1 + n2
                let R0 := (a * a) / (b * b)
                let c := 1 - cosi
                let Fr := R0 + (1 - R0) * (c * c * c * c * c)
                let T := eta • r.D + (eta * cosi - o.sqf |cost2|) • N
                let tray := { mkRay (I + eps • T) T 1e34 (-1) with inside := !r.inside }
                (Fr, (1 - Fr) • (albedo * Renderer.TraceFuel o eps maxd s fuel tray (depth + 1)))
              else (1, ⟨0, 0, 0⟩)
            frAndT.2 + frAndT.1 • (albedo * Renderer.TraceFuel o eps maxd s fuel rr (depth + 1))
          else ⟨0, 0, 0⟩
        let outDiffuse : Vec3 :=
          if diffuseness > 0 then
            let irradiance := Renderer.DirectIllumination o eps s I N
            let ambient : Vec3 := ⟨0.2, 0.2, 0.2⟩
            let brdf := INVPIq • albedo
            diffuseness • (brdf * (irradiance + ambient))
          else ⟨0, 0, 0⟩
        let out := outReflect + outRefract + outDiffuse
        let mediumScale : Vec3 :=
          if r.inside then
            ⟨o.expf (0.5 * -r.t), o.expf (0 * -r.t), o.expf (0.5 * -r.t)⟩
          else ⟨1, 1, 1⟩
        mediumScale * out

/-- `Renderer::Trace( ray, depth )`: the fuel-indexed body at the fuel
its depth cutoff guarantees sufficient. -/
def Renderer.Trace (o : Oracles) (eps : ℚ) (maxd : ℕ) (s : Scene)
    (ray : Ray) (depth : ℕ) : Vec3 :=
  Renderer.TraceFuel o eps maxd s (maxd + 1 - depth) ray depth

/-- The contract of claim C1 relating a primitive's id and a ray before
and after `Intersect`: either `t` and `objIdx` are untouched, or they are
overwritten by a strictly positive distance strictly below the previous
`t` together with the primitive's id. -/
def IntersectContract (old new : Ray) (idx : ℤ) : Prop :=
  (new.t = old.t ∧ new.objIdx = old.objIdx) ∨
  (0 < new.t ∧ new.t < old.t ∧ new.objIdx = idx)

/-- A concrete all-zero oracle assignment, used to instantiate theorems
at concrete inputs whose conclusions do not depend on oracle values. -/
def zeroOracles : Oracles :=
  ⟨fun _ => 0, fun _ => 0, fun _ => 0, fun _ => 0, fun _ => 0, fun _ => 0,
   fun _ => 0, fun _ => 0, fun _ => 0⟩

/-- A concrete oracle assignment whose sqrt oracle is the constant 3,
used for instantiations where the one distance queried is 3. -/
def sqrtThreeOracles : Oracles :=
  ⟨fun _ => 3, fun _ => 0, fun _ => 0, fun _ => 0, fun _ => 0, fun _ => 0,
   fun _ => 0, fun _ => 0, fun _ => 0⟩

/-- The light quads as built by the Scene constructor (scene.h line 605):
`Quad( 0, 0.5f )` with the default identity transform. -/
def initQuad : Quad := mkQuad 0 0.5 Mat4.identity

/-- The cube as built by the Scene constructor (scene.h line 611):
`Cube( 3, float3( 0 ), float3( 1.15f ) )` with the identity transform. -/
def c2Cube : Cube := mkCube 3 ⟨0, 0, 0⟩ ⟨1.15, 1.15, 1.15⟩ Mat4.identity

/-- A ray starting at the cube's center whose current `t` (0.1) lies
before the cube's exit distance (0.575). -/
def c2Ray : Ray := mkRay ⟨0, 0, 0⟩ ⟨1, 1, 1⟩ (1/10) (-1)

/-- A ray from above the light plane aimed through a light quad. -/
def c2QuadRay : Ray := mkRay ⟨0, 1, 0⟩ ⟨1/100, -1, 1/100⟩ 1e34 (-1)

/-- The torus radii as built by the Scene constructor (scene.h line 618):
`Torus( 10, 0.8f, 0.25f )`.  Its transform fields are irrelevant to
intersection and occlusion (both hardcode the placed transform), so the
identity stands in for the rotated placement of line 619. -/
def initTorus : Torus :=
  { rt2 := 0.0625, rc2 := 0.64, r2 := 1.1025, objIdx := 10,
    T := Mat4.identity, invT := Mat4.identity }

/-- A concrete scene state used to instantiate scene-level theorems: the
light quads, spheres, cube radii/ids and torus of the Scene constructor,
with the bouncing ball at its time-0 position and the cube left at the
identity transform (the theorems hold for every scene state). -/
def witnessScene : Scene :=
  { animTime := 0
    quad := fun _ => initQuad
    sphere := mkSphere 1 ⟨-1.8, -0.4, 1⟩ 0.6
    sphere2 := mkSphere 2 ⟨0, 2.5, -3.07⟩ 8
    cube := c2Cube
    plane := fun _ => ⟨⟨0, 1, 0⟩, 1, 6⟩
    torus := initTorus }

/-- A variant of `witnessScene` with the cube and the bouncing ball moved
far away from the region around the origin, leaving rays toward the
origin unoccluded. -/
def clearScene : Scene :=
  { witnessScene with
    cube := mkCube 3 ⟨6, 6, 6⟩ ⟨1, 1, 1⟩ Mat4.identity
    sphere := mkSphere 1 ⟨10, 10, 10⟩ 0.6 }

/-- A ray from far outside the room, aimed away from everything: every
primitive of `Scene::FindNearest` rejects it. -/
def c5Ray : Ray := mkRay ⟨10, 10, 10⟩ ⟨0.5, 0.5, 0.5⟩ 1e34 (-1)

/-- Unfolding lemma for `Vec3` addition. -/
theorem Vec3.add_def (a b : Vec3) :
    a + b = ⟨a.x + b.x, a.y + b.y, a.z + b.z⟩ := rfl

/-- Unfolding lemma for `Vec3` subtraction. -/
theorem Vec3.sub_def (a b : Vec3) :
    a - b = ⟨a.x - b.x, a.y - b.y, a.z - b.z⟩ := rfl

/-- Unfolding lemma for componentwise `Vec3` multiplication. -/
theorem Vec3.mul_def (a b : Vec3) :
    a * b = ⟨a.x * b.x, a.y * b.y, a.z * b.z⟩ := rfl

/-- Unfolding lemma for `Vec3` negation. -/
theorem Vec3.neg_def (a : Vec3) : -a = ⟨-a.x, -a.y, -a.z⟩ := rfl

/-- Unfolding lemma for `Vec3` scalar multiplication. -/
theorem Vec3.smul_def (s : ℚ) (a : Vec3) :
    s • a = ⟨s * a.x, s * a.y, s * a.z⟩ := rfl

/-- An untouched ray satisfies the C1 contract. -/
lemma intersectContract_refl (ray : Ray) (idx : ℤ) :
    IntersectContract ray ray idx :=
  Or.inl ⟨rfl, rfl⟩

/-- A guarded commit of a candidate distance satisfies the C1 contract. -/
lemma intersectContract_commit (ray : Ray) (idx : ℤ) (tv : ℚ) :
    IntersectContract ray
      (if tv > 0 ∧ tv < ray.t then { ray with t := tv, objIdx := idx } else ray)
      idx := by
  split_ifs with h
  · exact Or.inr ⟨h.1, h.2, rfl⟩
  · exact intersectContract_refl ray idx

/-- C1 holds for `Sphere::Intersect`. -/
lemma sphere_intersectContract (o : Oracles) (sp : Sphere) (ray : Ray) :
    IntersectContract ray (sp.Intersect o ray) sp.objIdx := by
  unfold IntersectContract
  simp only [Sphere.Intersect]
  split_ifs <;> simp_all

/-- C1 holds for `Plane::Intersect`. -/
lemma plane_intersectContract (pl : Plane) (ray : Ray) :
    IntersectContract ray (pl.Intersect ray) pl.objIdx := by
  unfold IntersectContract
  simp only [Plane.Intersect]
  split_ifs <;> simp_all

/-- C1 holds for `Cube::Intersect`. -/
lemma cube_intersectContract (cb : Cube) (ray : Ray) :
    IntersectContract ray (cb.Intersect ray) cb.objIdx := by
  unfold IntersectContract
  simp only [Cube.Intersect]
  split_ifs <;> simp_all

/-- C1 holds for `Quad::Intersect`. -/
lemma quad_intersectContract (qd : Quad) (ray : Ray) :
    IntersectContract ray (qd.Intersect ray) qd.objIdx := by
  unfold IntersectContract
  simp only [Quad.Intersect]
  split_ifs <;> simp_all

/-- C1 holds for the candidate-commit tail of `Torus::Intersect`. -/
lemma torusCommit_intersectContract (o : Oracles) (tor : Torus) (ray : Ray)
    (po z k3 d1 d2 : ℚ) :
    IntersectContract ray (torusCommit o tor ray po z k3 d1 d2) tor.objIdx := by
  simp only [torusCommit]
  apply intersectContract_commit

/-- C1 holds for `Torus::Intersect`. -/
lemma torus_intersectContract (o : Oracles) (tor : Torus) (ray : Ray) :
    IntersectContract ray (tor.Intersect o ray) tor.objIdx := by
  simp only [Torus.Intersect]
  split_ifs <;>
    first
      | exact intersectContract_refl ray tor.objIdx
      | apply torusCommit_intersectContract

/-- C1: for every primitive (Sphere, Plane, Cube, Quad, Torus) and every
ray, `Intersect` either leaves the ray's `t` and `objIdx` unchanged, or
overwrites them with a candidate distance strictly between 0 and the
previous `t` together with that primitive's identifier; `t` never
increases and no hit with `t ≤ 0` is ever recorded. -/
theorem c1_intersect_contract_all (o : Oracles) (sp : Sphere) (pl : Plane)
    (cb : Cube) (qd : Quad) (tor : Torus) (ray : Ray) :
    IntersectContract ray (sp.Intersect o ray) sp.objIdx ∧
    IntersectContract ray (pl.Intersect ray) pl.objIdx ∧
    IntersectContract ray (cb.Intersect ray) cb.objIdx ∧
    IntersectContract ray (qd.Intersect ray) qd.objIdx ∧
    IntersectContract ray (tor.Intersect o ray) tor.objIdx :=
  ⟨sphere_intersectContract o sp ray, plane_intersectContract pl ray,
   cube_intersectContract cb ray, quad_intersectContract qd ray,
   torus_intersectContract o tor ray⟩

/-- Negating the left argument negates the dot product. -/
lemma dot3_neg_left (a b : Vec3) : dot3 (-a) b = -dot3 a b := by
  show dot3 (Vec3.neg a) b = -dot3 a b
  simp only [dot3, Vec3.neg]
  ring

/-- The backside flip of `Scene::GetNormal` makes the result oppose the
incoming direction. -/
lemma flip_dot_nonpos (N wo : Vec3) :
    dot3 (if dot3 N wo > 0 then -N else N) wo ≤ 0 := by
  split
  next h => rw [dot3_neg_left]; linarith
  next h => push_neg at h; exact h

/-- C6: for every hit identifier, hit point and incoming direction, the
normal returned by `Scene::GetNormal` satisfies
`dot( normal, incomingDirection ) ≤ 0`: the dispatched primitive normal
is negated exactly when its dot product with the incoming direction is
positive. -/
theorem c6_getNormal_faces_incoming (o : Oracles) (s : Scene) (objIdx : ℤ)
    (I wo : Vec3) :
    dot3 (Scene.GetNormal o s objIdx I wo) wo ≤ 0 := by
  unfold Scene.GetNormal
  split
  · simp [dot3]
  · exact flip_dot_nonpos _ wo

/-- C7: for every primitive identifier and every point,
`GetReflectivity + GetRefractivity ≤ 1`, so
`diffuseness = 1 - reflectivity - refractivity` is never negative and
`diffuseness + reflectivity + refractivity` equals 1 exactly. -/
theorem c7_material_partition (s : Scene) (objIdx : ℤ) (I : Vec3) :
    Scene.GetReflectivity s objIdx I + Scene.GetRefractivity s objIdx I ≤ 1 ∧
    0 ≤ 1 - Scene.GetReflectivity s objIdx I - Scene.GetRefractivity s objIdx I ∧
    (1 - Scene.GetReflectivity s objIdx I - Scene.GetRefractivity s objIdx I)
      + Scene.GetReflectivity s objIdx I + Scene.GetRefractivity s objIdx I = 1 := by
  unfold Scene.GetReflectivity Scene.GetRefractivity
  split_ifs <;> norm_num <;> omega

/-- C9: `Scene::SetTime` is idempotent and its animated outputs (the
animation clock, the cube transform and its inverse, and the
bouncing-sphere position) depend only on `t`, for arbitrary and
non-monotonic `t`. -/
theorem c9_setTime_pure_idempotent (o : Oracles) (t : ℚ) :
    (∀ s, Scene.SetTime o (Scene.SetTime o s t) t = Scene.SetTime o s t) ∧
    (∀ s₁ s₂,
      (Scene.SetTime o s₁ t).animTime = (Scene.SetTime o s₂ t).animTime ∧
      (Scene.SetTime o s₁ t).cube.M = (Scene.SetTime o s₂ t).cube.M ∧
      (Scene.SetTime o s₁ t).cube.invM = (Scene.SetTime o s₂ t).cube.invM ∧
      (Scene.SetTime o s₁ t).sphere.pos = (Scene.SetTime o s₂ t).sphere.pos) :=
  ⟨fun _ => rfl, fun _ _ => ⟨rfl, rfl, rfl, rfl⟩⟩

/-- C10: for every point, `Scene::GetNormal` and `Scene::GetAlbedo`
called with hit identifier `-1` return the zero vector. -/
theorem c10_noHit_returns_zero (o : Oracles) (s : Scene) (I wo : Vec3) :
    Scene.GetNormal o s (-1) I wo = ⟨0, 0, 0⟩ ∧
    Scene.GetAlbedo o s (-1) I = ⟨0, 0, 0⟩ :=
  ⟨rfl, rfl⟩


/-- C2 counterexample: `Cube::IsOccluded` and `Cube::Intersect` disagree
on a concrete ray of the occlusion set — occlusion is reported although
no hit is recorded (the ray comes back unchanged), because the occlusion
test compares `ray.t` against the entry distance `tmin` (negative for a
ray starting inside) instead of the exit distance the intersection test
would have to record. -/
theorem c2_counterexample :
    Cube.IsOccluded c2Cube c2Ray = true ∧
    Cube.Intersect c2Cube c2Ray = c2Ray := by
  constructor
  · norm_num [Cube.IsOccluded, cubeSlab, c2Cube, c2Ray, mkCube, mkRay,
      Mat4.identity, Mat4.fastInvertedTransformNoScale, TransformPosition,
      TransformVector, Vec3.sub_def, Vec3.mul_def, Vec3.smul_def, Vec3.add_def]
  · norm_num [Cube.Intersect, cubeSlab, c2Cube, c2Ray, mkCube, mkRay,
      Mat4.identity, Mat4.fastInvertedTransformNoScale, TransformPosition,
      TransformVector, Vec3.sub_def, Vec3.mul_def, Vec3.smul_def, Vec3.add_def]

/-- C2 (amended): within the occlusion set the equivalence "IsOccluded
iff Intersect records a hit" holds exactly for the light quads; for the
cube a recorded hit implies occlusion but not conversely (see the
counterexample), and for the bouncing sphere occlusion implies a
recorded hit but not conversely (the occlusion test checks only the near
root, missing far-root hits from inside); the torus occlusion test
likewise checks only its `t1` candidates, under wider pivot thresholds
than its intersection test. -/
theorem c2_occlusion_vs_intersect_amended (o : Oracles) (qd : Quad)
    (cb : Cube) (sp : Sphere) (ray : Ray) :
    (qd.IsOccluded ray = true ↔ (qd.Intersect ray).t < ray.t) ∧
    ((cb.Intersect ray).t < ray.t → cb.IsOccluded ray = true) ∧
    (sp.IsOccluded o ray = true → (sp.Intersect o ray).t < ray.t) := by
  refine ⟨?_, ?_, ?_⟩
  · simp only [Quad.IsOccluded, Quad.Intersect]
    split_ifs <;> simp_all
  · intro h
    simp only [Cube.Intersect] at h
    simp only [Cube.IsOccluded, decide_eq_true_eq]
    split_ifs at h <;> simp_all
    all_goals linarith
  · intro h
    simp only [Sphere.IsOccluded] at h
    simp only [Sphere.Intersect]
    split_ifs at h ⊢ <;> simp_all

/-- Witness for the amended C2 theorem: on a concrete quad and ray where
the occlusion test fires, the intersection test records a hit. -/
theorem c2_occlusion_vs_intersect_amended_witness :
    (Quad.Intersect initQuad c2QuadRay).t < c2QuadRay.t :=
  (c2_occlusion_vs_intersect_amended zeroOracles initQuad c2Cube
    (mkSphere 1 ⟨0, 0, 0⟩ 0.6) c2QuadRay).1.mp (by
      norm_num [Quad.IsOccluded, initQuad, c2QuadRay, mkQuad, mkRay,
        Mat4.identity, Mat4.fastInvertedTransformNoScale])

/-- C3 supporting theorem (the claim is right about the code's intent and
the code is wrong): for every `r0` in the first stratum `[0, 1/4)` the
renormalisation `( r0 - stratum ) / ( 1 - stratum )` of
`Scene::RandomPointOnLight` divides by `1 - stratum = 1` instead of the
bucket width `1/4`, so the within-quad coordinate only sweeps `[0, 1/4)`
and the sampled point's x coordinate stays below `-1/8`, leaving the rest
of quad 0 (x up to `1/4`) unreachable. -/
theorem c3_randomPointOnLight_bucket0_truncated (r0 r1 : ℚ)
    (h0 : 0 ≤ r0) (h1 : r0 < 1/4) :
    (Scene.RandomPointOnLight witnessScene r0 r1).x < -1/8 := by
  have htr : truncQ (r0 * 4) = 0 := by
    unfold truncQ
    rw [if_pos (by linarith)]
    rw [Int.floor_eq_zero_iff]
    exact Set.mem_Ico.mpr ⟨by linarith, by linarith⟩
  simp only [Scene.RandomPointOnLight, htr, witnessScene, initQuad, mkQuad,
    Mat4.identity, Mat4.fastInvertedTransformNoScale, TransformPosition,
    Vec3.add_def, Vec3.sub_def, Vec3.smul_def]
  norm_num
  linarith

/-- Witness for the C3 theorem at `r0 = 1/10`, `r1 = 0`. -/
theorem c3_randomPointOnLight_bucket0_truncated_witness :
    0 ≤ (1/10 : ℚ) ∧ (1/10 : ℚ) < 1/4 ∧
    (Scene.RandomPointOnLight witnessScene (1/10) 0).x < -1/8 :=
  ⟨by norm_num, by norm_num,
   c3_randomPointOnLight_bucket0_truncated (1/10) 0 (by norm_num) (by norm_num)⟩

/-- C4: under the active FOURLIGHTS configuration `Scene::GetLightPos`
returns the zero vector for every call, so `Renderer::DirectIllumination`
computes its light direction, light distance and shadow ray toward the
world origin rather than toward any of the four light quads. -/
theorem c4_lightPos_origin (o : Oracles) (eps : ℚ) (s : Scene) (I N : Vec3) :
    Scene.GetLightPos s = ⟨0, 0, 0⟩ ∧
    Renderer.DirectIllumination o eps s I N =
      (let L0 : Vec3 := (⟨0, 0, 0⟩ : Vec3) - I
       let dist := o.sqf (dot3 L0 L0)
       let L := (1 / dist) • L0
       let ndotl := dot3 N L
       if ndotl < eps then ⟨0, 0, 0⟩ else
       if ¬ (Scene.IsOccluded o s (mkRay (I + eps • L) L (dist - 2 * eps) (-1))) then
         ndotl • ((1 / (dist * dist)) • Scene.GetLightColor s)
       else ⟨0, 0, 0⟩) :=
  ⟨rfl, rfl⟩

/-- C5: `Renderer::Trace` returns exactly zero radiance whenever the
intersected ray has `objIdx = -1` (the ray escaped the scene), and
whenever `depth > MAXDEPTH` (in particular at `depth = MAXDEPTH + 1`),
regardless of what was hit. -/
theorem c5_trace_terminal_zero (o : Oracles) (eps : ℚ) (maxd : ℕ)
    (s : Scene) (ray : Ray) (depth : ℕ) :
    ((Scene.FindNearest o s ray).objIdx = -1 →
       Renderer.Trace o eps maxd s ray depth = ⟨0, 0, 0⟩) ∧
    (maxd < depth → Renderer.Trace o eps maxd s ray depth = ⟨0, 0, 0⟩) := by
  constructor
  · intro h
    unfold Renderer.Trace
    rw [Renderer.TraceFuel.eq_def]
    exact if_pos h
  · intro h
    unfold Renderer.Trace
    rw [Renderer.TraceFuel.eq_def]
    rcases eq_or_ne (Scene.FindNearest o s ray).objIdx (-1) with he | he
    · exact if_pos he
    · refine Eq.trans (if_neg he) (if_pos h)

/-- Witness for C5: a concrete escaping ray (every primitive rejects it)
traced at depth 0, and a concrete hit traced past the depth cutoff
(`MAXDEPTH = 5`, depth 6), both yielding zero radiance. -/
theorem c5_trace_terminal_zero_witness :
    ((Scene.FindNearest zeroOracles witnessScene c5Ray).objIdx = -1 ∧
       Renderer.Trace zeroOracles (1/1000) 5 witnessScene c5Ray 0 = ⟨0, 0, 0⟩) ∧
    (5 < 6 ∧
       Renderer.Trace zeroOracles (1/1000) 5 witnessScene c5Ray 6 = ⟨0, 0, 0⟩) := by
  have hFN : (Scene.FindNearest zeroOracles witnessScene c5Ray).objIdx = -1 := by
    norm_num [Scene.FindNearest, planeMacroX, planeMacroY, planeMacroZ,
      quadLaneMask, Cube.Intersect, cubeSlab, Torus.Intersect,
      TransformPosition, TransformVector, witnessScene, c2Cube, initTorus,
      initQuad, mkQuad, mkCube, mkSphere, mkRay, c5Ray, Mat4.identity,
      Mat4.fastInvertedTransformNoScale, zeroOracles, dot3,
      Vec3.sub_def, Vec3.mul_def, Vec3.smul_def, Vec3.add_def]
  exact ⟨⟨hFN, (c5_trace_terminal_zero zeroOracles (1/1000) 5 witnessScene
                  c5Ray 0).1 hFN⟩,
         ⟨by norm_num, (c5_trace_terminal_zero zeroOracles (1/1000) 5
                  witnessScene c5Ray 6).2 (by norm_num)⟩⟩

/-- C8: with `L` the normalised direction to the scene light position and
`dist` the distance to it, `Renderer::DirectIllumination` returns zero
when `dot( N, L ) < EPSILON` (light behind the surface); otherwise it
casts the shadow ray with origin `I + EPSILON * L`, direction `L` and
maximum distance `dist - 2 * EPSILON`, returns zero if that ray is
occluded, and otherwise returns
`lightColor / dist² * dot( N, L )`. -/
theorem c8_direct_illumination_cases (o : Oracles) (eps : ℚ) (s : Scene)
    (I N L0 L : Vec3) (dist : ℚ)
    (hL0 : L0 = Scene.GetLightPos s - I)
    (hdist : dist = o.sqf (dot3 L0 L0))
    (hL : L = (1 / dist) • L0) :
    (dot3 N L < eps → Renderer.DirectIllumination o eps s I N = ⟨0, 0, 0⟩) ∧
    (¬ dot3 N L < eps →
       Scene.IsOccluded o s (mkRay (I + eps • L) L (dist - 2 * eps) (-1)) = true →
       Renderer.DirectIllumination o eps s I N = ⟨0, 0, 0⟩) ∧
    (¬ dot3 N L < eps →
       Scene.IsOccluded o s (mkRay (I + eps • L) L (dist - 2 * eps) (-1)) = false →
       Renderer.DirectIllumination o eps s I N
         = dot3 N L • ((1 / (dist * dist)) • Scene.GetLightColor s)) := by
  subst hL0
  subst hdist
  subst hL
  unfold Renderer.DirectIllumination
  refine ⟨fun h => ?_, fun h hocc => ?_, fun h hocc => ?_⟩
  · exact if_pos h
  · exact (if_neg h).trans (if_neg (fun hc => hc hocc))
  · exact (if_neg h).trans (if_pos (by rw [hocc]; simp))

/-- Witness for C8: all three branches at concrete inputs — a light
behind the surface, an occluded shadow ray (the cube at the origin blocks
the path), and a clear shadow ray yielding the inverse-square term. -/
theorem c8_direct_illumination_cases_witness :
    (dot3 ⟨-1/3, -2/3, -2/3⟩ ⟨1/3, 2/3, 2/3⟩ < (1/1000 : ℚ) ∧
      Renderer.DirectIllumination sqrtThreeOracles (1/1000) witnessScene
        ⟨-1, -2, -2⟩ ⟨-1/3, -2/3, -2/3⟩ = ⟨0, 0, 0⟩) ∧
    (Scene.IsOccluded sqrtThreeOracles witnessScene
        (mkRay ((⟨-1, -2, -2⟩ : Vec3) + (1/1000 : ℚ) • (⟨1/3, 2/3, 2/3⟩ : Vec3))
          ⟨1/3, 2/3, 2/3⟩ (3 - 2 * (1/1000)) (-1)) = true ∧
      Renderer.DirectIllumination sqrtThreeOracles (1/1000) witnessScene
        ⟨-1, -2, -2⟩ ⟨1/3, 2/3, 2/3⟩ = ⟨0, 0, 0⟩) ∧
    (Scene.IsOccluded sqrtThreeOracles clearScene
        (mkRay ((⟨-1, -2, -2⟩ : Vec3) + (1/1000 : ℚ) • (⟨1/3, 2/3, 2/3⟩ : Vec3))
          ⟨1/3, 2/3, 2/3⟩ (3 - 2 * (1/1000)) (-1)) = false ∧
      Renderer.DirectIllumination sqrtThreeOracles (1/1000) clearScene
        ⟨-1, -2, -2⟩ ⟨1/3, 2/3, 2/3⟩
        = dot3 ⟨1/3, 2/3, 2/3⟩ ⟨1/3, 2/3, 2/3⟩ •
            ((1 / ((3 : ℚ) * 3)) • Scene.GetLightColor clearScene)) := by
  have hL0 : (⟨1, 2, 2⟩ : Vec3) = Scene.GetLightPos witnessScene - ⟨-1, -2, -2⟩ := by
    norm_num [Scene.GetLightPos, Vec3.sub_def]
  have hL0c : (⟨1, 2, 2⟩ : Vec3) = Scene.GetLightPos clearScene - ⟨-1, -2, -2⟩ := by
    norm_num [Scene.GetLightPos, Vec3.sub_def]
  have hdist : (3 : ℚ) = sqrtThreeOracles.sqf (dot3 ⟨1, 2, 2⟩ ⟨1, 2, 2⟩) := rfl
  have hL : (⟨1/3, 2/3, 2/3⟩ : Vec3) = (1 / (3 : ℚ)) • (⟨1, 2, 2⟩ : Vec3) := by
    norm_num [Vec3.smul_def]
  have hocc2 : Scene.IsOccluded sqrtThreeOracles witnessScene
      (mkRay ((⟨-1, -2, -2⟩ : Vec3) + (1/1000 : ℚ) • (⟨1/3, 2/3, 2/3⟩ : Vec3))
        ⟨1/3, 2/3, 2/3⟩ (3 - 2 * (1/1000)) (-1)) = true := by
    norm_num [Scene.IsOccluded, Cube.IsOccluded, cubeSlab, quadLaneMask,
      Torus.IsOccluded, TransformPosition, TransformVector, witnessScene,
      c2Cube, initTorus, initQuad, mkQuad, mkCube, mkSphere, mkRay,
      Mat4.identity, Mat4.fastInvertedTransformNoScale, sqrtThreeOracles,
      dot3, Vec3.sub_def, Vec3.mul_def, Vec3.smul_def, Vec3.add_def]
  have hocc3 : Scene.IsOccluded sqrtThreeOracles clearScene
      (mkRay ((⟨-1, -2, -2⟩ : Vec3) + (1/1000 : ℚ) • (⟨1/3, 2/3, 2/3⟩ : Vec3))
        ⟨1/3, 2/3, 2/3⟩ (3 - 2 * (1/1000)) (-1)) = false := by
    norm_num [Scene.IsOccluded, Cube.IsOccluded, cubeSlab, quadLaneMask,
      Torus.IsOccluded, TransformPosition, TransformVector, clearScene,
      witnessScene, c2Cube, initTorus, initQuad, mkQuad, mkCube, mkSphere,
      mkRay, Mat4.identity, Mat4.fastInvertedTransformNoScale,
      sqrtThreeOracles, dot3, Vec3.sub_def, Vec3.mul_def, Vec3.smul_def,
      Vec3.add_def]
  refine ⟨⟨by norm_num [dot3], ?_⟩, ⟨hocc2, ?_⟩, ⟨hocc3, ?_⟩⟩
  · exact (c8_direct_illumination_cases sqrtThreeOracles (1/1000) witnessScene
      ⟨-1, -2, -2⟩ ⟨-1/3, -2/3, -2/3⟩ ⟨1, 2, 2⟩ ⟨1/3, 2/3, 2/3⟩ 3
      hL0 hdist hL).1 (by norm_num [dot3])
  · exact (c8_direct_illumination_cases sqrtThreeOracles (1/1000) witnessScene
      ⟨-1, -2, -2⟩ ⟨1/3, 2/3, 2/3⟩ ⟨1, 2, 2⟩ ⟨1/3, 2/3, 2/3⟩ 3
      hL0 hdist hL).2.1 (by norm_num [dot3]) hocc2
  · exact (c8_direct_illumination_cases sqrtThreeOracles (1/1000) clearScene
      ⟨-1, -2, -2⟩ ⟨1/3, 2/3, 2/3⟩ ⟨1, 2, 2⟩ ⟨1/3, 2/3, 2/3⟩ 3
      hL0c hdist hL).2.2 (by norm_num [dot3]) hocc3
